import Mathlib

/-!
# Verification of `TGenerator<T>` (src/Generator.h)

A shallow embedding of the C++20-coroutine generator in `src/Generator.h`:
the coroutine promise (`TGeneratorPromise`), the strong handle
(`TGenerator`), the weak handle (`TWeakGeneratorHandle`) and the iterator
adaptor (`TGeneratorIterator`), together with the iteration and manual
resume protocols built from them.

Modelling conventions, each justified against the source:

* A generator body is pure data: the finite list of values it will
  `co_yield`, plus an optional exception it raises after the last yield
  instead of returning (`GeneratorBody`).
* The suspended coroutine frame is the part of the promise state that the
  native `std::coroutine_handle::resume()` consumes: the yields not yet
  executed (`remaining`), the trailing raise (`raises`), and the `done()`
  flag of the handle (`doneFlag`).  `coroResume` re-enters the body:
  `co_yield v` runs `yield_value` (line 176, sets `CurrentValuePtr`) and
  suspends; falling off the end runs `return_void` and parks at
  `final_suspend` (`done()` becomes true); an escaping exception runs
  `unhandled_exception` (line 183, stores `Exception`) and the coroutine
  likewise completes, so `done()` becomes true.
* The source declares the promise member `CurrentValuePtr` (line 141) but
  three template member bodies still spell it `CurrentValue` (lines 83,
  85, 222) — an incomplete rename.  The embedding identifies the two
  names: both denote the single current-value pointer member.
* `T* CurrentValuePtr` is `Option α` (`none` = `nullptr`);
  `std::exception_ptr Exception` is `Option ε`.  Exceptions propagate as
  explicit outcome values (`thrown`), `checkf` assertion failures as
  `checkFailed`, and dereferencing a null value pointer — undefined
  behaviour in C++ — as `nullDeref`.
-/

set_option autoImplicit false

namespace Generator

/-- A generator body, as data: the values it yields in order, and `some e`
when it raises exception `e` after the last yield instead of returning
normally (`none` = the body runs `co_return`/falls off the end). -/
structure GeneratorBody (α ε : Type) where
  yields : List α
  raises : Option ε
  deriving DecidableEq

/-- The state of `TGeneratorPromise<T>` together with its suspended
coroutine frame.  `CurrentValuePtr` and `Exception` are the members
declared at lines 141 and 144 of the source; `remaining`, `raises` and
`doneFlag` embed the suspended frame and the handle's `done()` bit. -/
structure TGeneratorPromise (α ε : Type) where
  CurrentValuePtr : Option α
  Exception : Option ε
  remaining : List α
  raises : Option ε
  doneFlag : Bool
  deriving DecidableEq

/-- The promise of a freshly invoked generator: `initial_suspend` is
`suspend_always`, so the frame is suspended before any body code ran,
no value is held and no exception is captured. -/
def initialPromise {α ε : Type} (b : GeneratorBody α ε) : TGeneratorPromise α ε :=
  { CurrentValuePtr := none
    Exception := none
    remaining := b.yields
    raises := b.raises
    doneFlag := false }

/-- `std::coroutine_handle::resume()` on a non-done frame: run the body to
its next suspension.  The next `co_yield v` stores the value pointer
(`yield_value`, line 178) and suspends; with no yields left the body either
raises (`unhandled_exception` stores the exception, line 186, and the
coroutine completes) or returns (`return_void`), parking at
`final_suspend`, after which `done()` is true. -/
def coroResume {α ε : Type} (p : TGeneratorPromise α ε) : TGeneratorPromise α ε :=
  match p.remaining with
  | v :: rest => { p with CurrentValuePtr := some v, remaining := rest }
  | [] =>
    match p.raises with
    | some e => { p with Exception := some e, doneFlag := true }
    | none => { p with doneFlag := true }

/-- `TGeneratorPromise<T>::Resume` (lines 190–196): if the handle is not
done, resume it; return `!Handle.done()` afterwards.  An already-done
frame is not re-entered and yields `false`. -/
def TGeneratorPromise.Resume {α ε : Type} (p : TGeneratorPromise α ε) :
    Bool × TGeneratorPromise α ε :=
  if p.doneFlag then (false, p)
  else
    let p1 := coroResume p
    (!p1.doneFlag, p1)

/-- Outcome of a call to `TGenerator<T>::Resume`: the returned `bool`, or
an exception propagating out of the call (`ThrowIfException`). -/
inductive ResumeOutcome (ε : Type) where
  | ok : Bool → ResumeOutcome ε
  | thrown : ε → ResumeOutcome ε
  deriving DecidableEq

/-- `TGenerator<T>::Resume` (lines 112–120): forward to the promise's
`Resume`, then `ThrowIfException` (line 145) rethrows the captured
exception whenever `Exception` is non-null — the member is never cleared,
so the check fires on every later call as well. -/
def TGenerator.Resume {α ε : Type} (p : TGeneratorPromise α ε) :
    ResumeOutcome ε × TGeneratorPromise α ε :=
  let r := TGeneratorPromise.Resume p
  match r.2.Exception with
  | some e => (.thrown e, r.2)
  | none => (.ok r.1, r.2)

/-- `TGenerator<T>::HasValue` (line 85): `CurrentValue != nullptr` — the
`CurrentValue` spelling denotes the member declared `CurrentValuePtr`. -/
def TGenerator.HasValue {α ε : Type} (p : TGeneratorPromise α ε) : Bool :=
  p.CurrentValuePtr.isSome

/-- Outcome of `TGenerator<T>::GetCurrentValue`: the referenced value, or
the `checkf` precondition failure "Attempted to access an empty
generator". -/
inductive ValueOutcome (α : Type) where
  | ok : α → ValueOutcome α
  | checkFailed : ValueOutcome α
  deriving DecidableEq

/-- `TGenerator<T>::GetCurrentValue` (lines 105–110): `checkf` that the
current-value pointer is non-null, then dereference it. -/
def TGenerator.GetCurrentValue {α ε : Type} (p : TGeneratorPromise α ε) :
    ValueOutcome α :=
  match p.CurrentValuePtr with
  | some v => .ok v
  | none => .checkFailed

/-- Outcome of `TGenerator<T>::begin` / `CreateIterator`: `ok` means the
call returned `iterator(*this)` — an adaptor whose weak handle references
this generator's live promise; `thrown e` means `ThrowIfException`
propagated the captured exception out of the call; `terminated` is
`std::terminate`, reached when an exception escapes a `noexcept`
function. -/
inductive BeginOutcome (ε : Type) where
  | ok : BeginOutcome ε
  | thrown : ε → BeginOutcome ε
  | terminated : BeginOutcome ε
  deriving DecidableEq

/-- `TGenerator<T>::begin` (lines 122–130): prime with one resume if no
value is held yet, rethrow a captured exception, and otherwise return
`iterator(*this)` — unconditionally referencing the live promise, even
when the priming resume already exhausted the sequence. -/
def TGenerator.begin {α ε : Type} (p : TGeneratorPromise α ε) :
    BeginOutcome ε × TGeneratorPromise α ε :=
  let p1 := if TGenerator.HasValue p then p else (TGeneratorPromise.Resume p).2
  match p1.Exception with
  | some e => (.thrown e, p1)
  | none => (.ok, p1)

/-- `TGenerator<T>::CreateIterator` (line 95): `return begin();`, but the
function is declared `noexcept`, so an exception thrown by `begin()`
cannot propagate: the C++ runtime calls `std::terminate` instead
([except.spec]).  The promise state reached is the same either way. -/
def TGenerator.CreateIterator {α ε : Type} (p : TGeneratorPromise α ε) :
    BeginOutcome ε × TGeneratorPromise α ε :=
  match TGenerator.begin p with
  | (.thrown _, p1) => (.terminated, p1)
  | r => r

/-!
## Weak handles, the control block, and the iterator adaptor

`TGenerator` wraps a `TSharedPtr<TGeneratorPromise<T>>` whose deleter calls
`Promise->Destroy()` (line 134); `TWeakGeneratorHandle` wraps the matching
`TWeakPtr` (line 51).  `ControlBlock` embeds the reference-counted control
block of one coroutine state: the state itself (`none` after the deleter
destroyed the frame) and the strong reference count.  An iterator adaptor
is a weak handle, embedded as a `Bool`: whether its `TWeakPtr` references
this control block (`false` = null weak pointer, the default-constructed
`end()` sentinel).
-/

/-- The shared control block of one coroutine state: the state is alive
while strong references exist; when the last `TGenerator` drops, the
shared-pointer deleter runs `Promise->Destroy()` and the state is gone. -/
structure ControlBlock (α ε : Type) where
  state : Option (TGeneratorPromise α ε)
  strongCount : Nat
  deriving DecidableEq

/-- `TWeakPtr::IsValid()` for a weak pointer that either is null
(`hasRef = false`) or references this control block: valid exactly when it
references a still-alive state. -/
def WeakIsValid {α ε : Type} (hasRef : Bool) (cb : ControlBlock α ε) : Bool :=
  hasRef && cb.state.isSome

/-- `TWeakGeneratorHandle<T>::Pin` (lines 64–70): if the weak pointer is
valid, wrap `Promise.Pin()` in a new strong handle — the returned handle
shares the identical state and the strong count grows by one; otherwise
return the empty `TGenerator{}`, touching nothing. -/
def TWeakGeneratorHandle.Pin {α ε : Type} (hasRef : Bool) (cb : ControlBlock α ε) :
    Option (TGeneratorPromise α ε) × ControlBlock α ε :=
  if WeakIsValid hasRef cb then
    (cb.state, { cb with strongCount := cb.strongCount + 1 })
  else (none, cb)

/-- Dropping one strong handle: decrement the strong count; when the last
one drops, the deleter destroys the coroutine state (`Promise->Destroy()`,
line 134). -/
def dropStrongHandle {α ε : Type} (cb : ControlBlock α ε) : ControlBlock α ε :=
  if cb.strongCount ≤ 1 then { state := none, strongCount := 0 }
  else { cb with strongCount := cb.strongCount - 1 }

/-- Dropping `n` strong handles in turn. -/
def dropStrongHandles {α ε : Type} : Nat → ControlBlock α ε → ControlBlock α ε
  | 0, cb => cb
  | n + 1, cb => dropStrongHandles n (dropStrongHandle cb)

/-- Outcome of `TGeneratorIterator<T>::operator++`: normal return, an
exception propagated by `ThrowIfException`, or the `checkf` failure
"Attempted to advance an invalid iterator". -/
inductive AdvanceOutcome (ε : Type) where
  | ok : AdvanceOutcome ε
  | thrown : ε → AdvanceOutcome ε
  | checkFailed : AdvanceOutcome ε
  deriving DecidableEq

/-- `TGeneratorIterator<T>::operator++` (lines 204–215): `checkf` that the
weak pointer is valid; pin it and resume once; when the resume reports no
more values, null the weak pointer first and only then rethrow any captured
exception.  The temporary strong handle `StrongPromise` dies at the end of
the statement, so the strong count is unchanged overall.  Returns the call
outcome, the adaptor's new referencing bit, and the updated control
block. -/
def TGeneratorIterator.advance {α ε : Type} (hasRef : Bool) (cb : ControlBlock α ε) :
    AdvanceOutcome ε × Bool × ControlBlock α ε :=
  match cb.state with
  | none => (.checkFailed, hasRef, cb)
  | some p =>
    if hasRef then
      let r := TGeneratorPromise.Resume p
      if r.1 then (.ok, true, { cb with state := some r.2 })
      else
        match r.2.Exception with
        | some e => (.thrown e, false, { cb with state := some r.2 })
        | none => (.ok, false, { cb with state := some r.2 })
    else (.checkFailed, hasRef, cb)

/-- `TGeneratorIterator<T>::operator++(int)` (line 217): `{ operator++(); }`
— it performs the pre-increment's transition and returns `void`, never a
copy of the pre-advance iterator. -/
def TGeneratorIterator.advancePost {α ε : Type} (hasRef : Bool) (cb : ControlBlock α ε) :
    AdvanceOutcome ε × Bool × ControlBlock α ε :=
  TGeneratorIterator.advance hasRef cb

/-!
## Weak-pointer equality

`operator==` on two adaptors (line 227) compares their `TWeakPtr` members.
Unreal's global `operator==` for `TWeakPtr` compares
`A.Pin().Get() == B.Pin().Get()`: the raw object pointers obtained by
pinning, where a null or expired weak pointer pins to `nullptr`.  To state
identity comparison between adaptors that may reference different states,
states are named by identifiers and `alive` says which still exist. -/

/-- `Pin().Get()` of a weak pointer that is either null (`none`) or stores
state identifier `i` (`some i`): the raw pointer is null unless the state
is still alive. -/
def pinGet (alive : Nat → Bool) : Option Nat → Option Nat
  | none => none
  | some i => if alive i then some i else none

/-- `TGeneratorIterator<T>::operator==` (line 227): Unreal weak-pointer
equality, `this->Promise.Pin().Get() == Other.Promise.Pin().Get()`. -/
def TGeneratorIterator.eq (alive : Nat → Bool) (a b : Option Nat) : Bool :=
  decide (pinGet alive a = pinGet alive b)

/-- `TGeneratorIterator<T>::operator!=` (line 228): Unreal weak-pointer
inequality, `this->Promise.Pin().Get() != Other.Promise.Pin().Get()`. -/
def TGeneratorIterator.ne (alive : Nat → Bool) (a b : Option Nat) : Bool :=
  !decide (pinGet alive a = pinGet alive b)

/-!
## Iteration and manual-resume drivers

`runIterate` embeds the consumer's `for (auto it = Gen.begin(); it !=
Gen.end(); ++it) use(*it);` over a single generator that stays alive for
the whole loop (one strong handle, the generator object itself).  Per
iteration the loop evaluates `it != Gen.end()` — Unreal weak-pointer
inequality, which with the state alive is exactly "the adaptor still
references the state" (`WeakIsValid`) — then dereferences (`operator*`,
lines 219–223: `checkf(Promise.IsValid())`, then
`*this->Promise.Pin()->CurrentValue`, the current-value pointer, which is
dereferenced with no null check), then advances.  `resumeIter` /
`resumeOutcome` embed the manual loop of repeated `Gen.Resume()` calls. -/

/-- Result of running the iteration protocol: the values the loop body
observed, and how the loop ended — normally at the sentinel, by an
exception propagating out of `operator++` or `begin()`, by dereferencing
a null current-value pointer (undefined behaviour in the C++ source), or
by a `checkf` precondition failure.  `fuelOut` is reached only when the
step budget of the driver is exhausted, never for the budgets used
below. -/
inductive IterResult (α ε : Type) where
  | finished : List α → IterResult α ε
  | raised : List α → ε → IterResult α ε
  | nullDeref : List α → IterResult α ε
  | invalid : List α → IterResult α ε
  | fuelOut : IterResult α ε
  deriving DecidableEq

/-- The `it != end(); *it; ++it` loop, fuelled.  Stops when the adaptor no
longer references a live state (it then equals the `end()` sentinel);
otherwise reads the current value and advances, accumulating the values
read. -/
def drainLoop {α ε : Type} :
    Nat → Bool → ControlBlock α ε → List α → IterResult α ε × Bool × ControlBlock α ε
  | 0, hasRef, cb, _ => (.fuelOut, hasRef, cb)
  | fuel + 1, hasRef, cb, acc =>
    match cb.state with
    | none => (.finished acc.reverse, hasRef, cb)
    | some p =>
      if hasRef then
        match p.CurrentValuePtr with
        | none => (.nullDeref acc.reverse, hasRef, cb)
        | some v =>
          match TGeneratorIterator.advance hasRef cb with
          | (.ok, hasRef2, cb2) => drainLoop fuel hasRef2 cb2 (v :: acc)
          | (.thrown e, hasRef2, cb2) => (.raised ((v :: acc).reverse) e, hasRef2, cb2)
          | (.checkFailed, hasRef2, cb2) => (.invalid ((v :: acc).reverse), hasRef2, cb2)
      else (.finished acc.reverse, hasRef, cb)

/-- Step budget for `runIterate`: one loop iteration per yielded value,
one for the exhausting advance, one for the final sentinel check. -/
def iterFuel {α ε : Type} (b : GeneratorBody α ε) : Nat :=
  b.yields.length + 2

/-- Run the full iteration protocol over a fresh generator: `begin()`
(which primes and may throw), then the `it != end()` loop.  Returns the
iteration result, the adaptor's final referencing bit, and the final
control block (one strong handle — the generator object — alive
throughout).  When `begin()` throws, no adaptor was ever constructed and
the loop never runs.  (`begin` never produces `terminated`; that branch is
unreachable.) -/
def runIterate {α ε : Type} (b : GeneratorBody α ε) :
    IterResult α ε × Bool × ControlBlock α ε :=
  match TGenerator.begin (initialPromise b) with
  | (.thrown e, p1) => (.raised [] e, false, ⟨some p1, 1⟩)
  | (.terminated, p1) => (.fuelOut, false, ⟨some p1, 1⟩)
  | (.ok, p1) => drainLoop (iterFuel b) true ⟨some p1, 1⟩ []

/-- The promise state after `n` calls to `TGenerator<T>::Resume` (the
state evolves identically whether or not the call ends by throwing, since
`ThrowIfException` runs after the state update). -/
def resumeIter {α ε : Type} : Nat → TGeneratorPromise α ε → TGeneratorPromise α ε
  | 0, p => p
  | n + 1, p => resumeIter n (TGenerator.Resume p).2

/-- The outcome of the `(n+1)`-th call to `TGenerator<T>::Resume` in a
manual resume loop started on `p`. -/
def resumeOutcome {α ε : Type} (n : Nat) (p : TGeneratorPromise α ε) : ResumeOutcome ε :=
  (TGenerator.Resume (resumeIter n p)).1

/-- Whether an adaptor references a live state: it stores some state
identifier and that state is still alive (the spec's "references a live
state"). -/
def referencesLive (alive : Nat → Bool) : Option Nat → Bool
  | none => false
  | some i => alive i

/-!
## Helper lemmas
-/

/-- A finished frame is not re-entered: the promise-level `Resume` returns
`false` and leaves the state untouched. -/
theorem TGeneratorPromise.resume_done {α ε : Type} (p : TGeneratorPromise α ε)
    (h : p.doneFlag = true) : TGeneratorPromise.Resume p = (false, p) := by
  simp [TGeneratorPromise.Resume, h]

/-- On a finished frame, the handle-level `Resume` leaves the promise
state unchanged (whatever its outcome). -/
theorem TGenerator.resume_state_done {α ε : Type} (p : TGeneratorPromise α ε)
    (h : p.doneFlag = true) : (TGenerator.Resume p).2 = p := by
  cases he : p.Exception <;>
    simp [TGenerator.Resume, TGeneratorPromise.resume_done p h, he]

/-- Repeated handle-level resumes leave a finished promise unchanged. -/
theorem resumeIter_done {α ε : Type} (n : Nat) (p : TGeneratorPromise α ε)
    (h : p.doneFlag = true) : resumeIter n p = p := by
  induction n with
  | zero => rfl
  | succ n ih => simpa [resumeIter, TGenerator.resume_state_done p h] using ih

/-- Splitting a run of resumes. -/
theorem resumeIter_add {α ε : Type} (m n : Nat) (p : TGeneratorPromise α ε) :
    resumeIter (m + n) p = resumeIter n (resumeIter m p) := by
  induction m generalizing p with
  | zero => simp [resumeIter]
  | succ m ih =>
    have h1 : m + 1 + n = (m + n) + 1 := by omega
    rw [h1]
    simpa [resumeIter] using ih (TGenerator.Resume p).2

/-- One handle-level resume of a suspended frame with yields remaining:
the next value is stored and the call reports `ok true`. -/
theorem TGenerator.resume_yield {α ε : Type} (cv : Option α) (v : α)
    (rest : List α) (r : Option ε) :
    TGenerator.Resume (⟨cv, none, v :: rest, r, false⟩ : TGeneratorPromise α ε)
      = (.ok true, ⟨some v, none, rest, r, false⟩) := by
  simp [TGenerator.Resume, TGeneratorPromise.Resume, coroResume]

/-- One handle-level resume of a suspended frame with no yields left and a
normally returning body: the frame completes, the current value is kept,
and the call reports `ok false`. -/
theorem TGenerator.resume_finish {α ε : Type} (cv : Option α) :
    TGenerator.Resume (⟨cv, none, [], none, false⟩ : TGeneratorPromise α ε)
      = (.ok false, ⟨cv, none, [], none, true⟩) := by
  simp [TGenerator.Resume, TGeneratorPromise.Resume, coroResume]

/-- One handle-level resume of a suspended frame with no yields left and a
raising body: the exception is captured, the frame completes, and the call
throws. -/
theorem TGenerator.resume_raise {α ε : Type} (cv : Option α) (e : ε) :
    TGenerator.Resume (⟨cv, none, [], some e, false⟩ : TGeneratorPromise α ε)
      = (.thrown e, ⟨cv, some e, [], some e, true⟩) := by
  simp [TGenerator.Resume, TGeneratorPromise.Resume, coroResume]

/-- Running one resume per pending yield: every yield executes in order
and the current value ends at the last yielded one (`foldl` form). -/
theorem resumeIter_run {α ε : Type} (vs : List α) (cv : Option α) (r : Option ε) :
    resumeIter vs.length (⟨cv, none, vs, r, false⟩ : TGeneratorPromise α ε)
      = ⟨vs.foldl (fun _ x => some x) cv, none, [], r, false⟩ := by
  induction vs generalizing cv with
  | nil => rfl
  | cons v rest ih =>
    show resumeIter (rest.length + 1) _ = _
    rw [Nat.add_comm rest.length 1, resumeIter_add]
    simpa [resumeIter, TGenerator.resume_yield] using ih (some v)

/-- The `foldl` that tracks the current-value pointer computes the last
yielded value. -/
theorem foldl_lastYield {α : Type} (vs : List α) (v : α) (cv : Option α) :
    (v :: vs).foldl (fun _ x => some x) cv = some (vs.getLastD v) := by
  induction vs generalizing v cv with
  | nil => rfl
  | cons w ws ih =>
    rw [List.getLastD_cons]
    simpa [List.foldl] using ih w (some v)

/-- Driving a fresh generator with a normally returning body to
exhaustion: after one resume per yield plus the finishing resume, the
frame is done, no exception is captured, and the current value is the last
yield (if any). -/
theorem resumeIter_exhaust {α ε : Type} (vs : List α) :
    resumeIter (vs.length + 1) (initialPromise (⟨vs, none⟩ : GeneratorBody α ε))
      = ⟨vs.foldl (fun _ x => some x) none, none, [], none, true⟩ := by
  rw [resumeIter_add]
  simp [initialPromise, resumeIter_run, resumeIter, TGenerator.resume_finish]

/-- Driving a fresh generator with a raising body past its yields: the
resume after the last yield captures the exception and finishes the
frame, keeping the last yielded value. -/
theorem resumeIter_exhaust_raise {α ε : Type} (vs : List α) (e : ε) :
    resumeIter (vs.length + 1) (initialPromise (⟨vs, some e⟩ : GeneratorBody α ε))
      = ⟨vs.foldl (fun _ x => some x) none, some e, [], some e, true⟩ := by
  rw [resumeIter_add]
  simp [initialPromise, resumeIter_run, resumeIter, TGenerator.resume_raise]

/-- The iteration loop over a live, holding-a-value state whose body
returns normally: it visits the held value and every pending yield in
order, then the exhausting advance clears the adaptor and the loop stops
at the sentinel.  `k` is fuel slack. -/
theorem drainLoop_run {α ε : Type} (rest : List α) (k : Nat) (v : α)
    (acc : List α) (sc : Nat) :
    drainLoop (rest.length + k + 2) true
        (⟨some ⟨some v, none, rest, none, false⟩, sc⟩ : ControlBlock α ε) acc
      = (.finished (acc.reverse ++ v :: rest), false,
         ⟨some ⟨some (rest.getLastD v), none, [], none, true⟩, sc⟩) := by
  induction rest generalizing v acc with
  | nil =>
    have hf : ([] : List α).length + k + 2 = (k + 1) + 1 := by simp
    rw [hf]
    simp [drainLoop, TGeneratorIterator.advance, TGeneratorPromise.Resume, coroResume]
  | cons w ws ih =>
    have hf : (w :: ws).length + k + 2 = (ws.length + k + 2) + 1 := by
      simp [List.length_cons]; omega
    rw [hf, List.getLastD_cons]
    simpa [drainLoop, TGeneratorIterator.advance, TGeneratorPromise.Resume,
      coroResume] using ih w (v :: acc)

/-- The iteration loop over a live, holding-a-value state whose body
raises after its yields: it visits the held value and every pending yield
in order, then the exhausting advance clears the adaptor and rethrows the
captured exception out of the loop. -/
theorem drainLoop_raise {α ε : Type} (rest : List α) (k : Nat) (v : α) (e : ε)
    (acc : List α) (sc : Nat) :
    drainLoop (rest.length + k + 2) true
        (⟨some ⟨some v, none, rest, some e, false⟩, sc⟩ : ControlBlock α ε) acc
      = (.raised (acc.reverse ++ v :: rest) e, false,
         ⟨some ⟨some (rest.getLastD v), some e, [], some e, true⟩, sc⟩) := by
  induction rest generalizing v acc with
  | nil =>
    have hf : ([] : List α).length + k + 2 = (k + 1) + 1 := by simp
    rw [hf]
    simp [drainLoop, TGeneratorIterator.advance, TGeneratorPromise.Resume, coroResume]
  | cons w ws ih =>
    have hf : (w :: ws).length + k + 2 = (ws.length + k + 2) + 1 := by
      simp [List.length_cons]; omega
    rw [hf, List.getLastD_cons]
    simpa [drainLoop, TGeneratorIterator.advance, TGeneratorPromise.Resume,
      coroResume] using ih w (v :: acc)

/-- Full iteration of a generator with at least one yield and a normally
returning body: `begin()` primes to the first value, the loop visits every
yielded value in order, the adaptor ends cleared (equal to the sentinel),
and the final promise is done, exception-free, still holding the last
yielded value. -/
theorem runIterate_finished {α ε : Type} (v : α) (vs : List α) :
    runIterate (⟨v :: vs, none⟩ : GeneratorBody α ε)
      = (.finished (v :: vs), false,
         ⟨some ⟨some (vs.getLastD v), none, [], none, true⟩, 1⟩) := by
  have h := drainLoop_run (ε := ε) vs 1 v [] 1
  simpa [runIterate, TGenerator.begin, TGenerator.HasValue, initialPromise,
    TGeneratorPromise.Resume, coroResume, iterFuel, Nat.add_assoc] using h

/-- Full iteration of a generator with at least one yield and a raising
body: the loop visits every yielded value in order, then the exhausting
advance clears the adaptor and rethrows; the final promise is done and
still holds both the last value and the captured exception. -/
theorem runIterate_raised {α ε : Type} (v : α) (vs : List α) (e : ε) :
    runIterate (⟨v :: vs, some e⟩ : GeneratorBody α ε)
      = (.raised (v :: vs) e, false,
         ⟨some ⟨some (vs.getLastD v), some e, [], some e, true⟩, 1⟩) := by
  have h := drainLoop_raise (ε := ε) vs 1 v e [] 1
  simpa [runIterate, TGenerator.begin, TGenerator.HasValue, initialPromise,
    TGeneratorPromise.Resume, coroResume, iterFuel, Nat.add_assoc] using h

/-- Iterating a generator whose body raises before any yield: the priming
resume inside `begin()` captures the exception and `ThrowIfException`
rethrows it out of `begin()` itself; no adaptor is ever constructed. -/
theorem runIterate_raised_nil {α ε : Type} (e : ε) :
    runIterate (⟨[], some e⟩ : GeneratorBody α ε)
      = (.raised [] e, false, ⟨some ⟨none, some e, [], some e, true⟩, 1⟩) := by
  simp [runIterate, TGenerator.begin, TGenerator.HasValue, initialPromise,
    TGeneratorPromise.Resume, coroResume]

/-- On a finished frame with a captured exception, every handle-level
resume throws it again: the `Exception` member is never cleared and
`ThrowIfException` checks it unconditionally. -/
theorem TGenerator.resume_done_exc {α ε : Type} (p : TGeneratorPromise α ε) (e : ε)
    (h : p.doneFlag = true) (he : p.Exception = some e) :
    TGenerator.Resume p = (.thrown e, p) := by
  simp [TGenerator.Resume, TGeneratorPromise.resume_done p h, he]

/-- In a manual resume loop over a suspended frame with yields left, the
`(k+1)`-th resume (for `k` below the number of pending yields) reports
`ok true` and leaves the `k`-th pending yield as the current value. -/
theorem resumeOutcome_lt {α ε : Type} (vs : List α) (r : Option ε) (k : Nat)
    (h : k < vs.length) (cv : Option α) :
    resumeOutcome k (⟨cv, none, vs, r, false⟩ : TGeneratorPromise α ε) = .ok true
      ∧ TGenerator.GetCurrentValue
          (resumeIter (k + 1) (⟨cv, none, vs, r, false⟩ : TGeneratorPromise α ε))
          = .ok (vs.get ⟨k, h⟩) := by
  induction k generalizing vs cv with
  | zero =>
    match vs, h with
    | v :: rest, _ =>
      refine ⟨?_, ?_⟩
      · simp [resumeOutcome, resumeIter, TGenerator.resume_yield]
      · simp [resumeIter, TGenerator.resume_yield, TGenerator.GetCurrentValue]
  | succ k ih =>
    match vs, h with
    | v :: rest, h =>
      have hk : k < rest.length := Nat.lt_of_succ_lt_succ h
      have step : resumeIter 1 (⟨cv, none, v :: rest, r, false⟩ : TGeneratorPromise α ε)
          = ⟨some v, none, rest, r, false⟩ := by
        simp [resumeIter, TGenerator.resume_yield]
      refine ⟨?_, ?_⟩
      · have := (ih rest hk (some v)).1
        simpa [resumeOutcome, resumeIter, TGenerator.resume_yield] using this
      · have := (ih rest hk (some v)).2
        simpa [resumeIter, TGenerator.resume_yield] using this

/-- In a manual resume loop over a fresh generator with a raising body,
every resume from the `(N+1)`-th on (for `N` the number of yields) throws
the captured exception: the discovering resume throws it first, and every
later resume rethrows it because `Exception` is never cleared. -/
theorem resumeOutcome_ge_raise {α ε : Type} (vs : List α) (e : ε) (k : Nat)
    (h : vs.length ≤ k) :
    resumeOutcome k (initialPromise (⟨vs, some e⟩ : GeneratorBody α ε)) = .thrown e := by
  obtain ⟨m, rfl⟩ := Nat.exists_eq_add_of_le h
  cases m with
  | zero =>
    simp [resumeOutcome, initialPromise, resumeIter_run, TGenerator.resume_raise]
  | succ m =>
    have hsplit : vs.length + (m + 1) = (vs.length + 1) + m := by omega
    have hstate :
        resumeIter (vs.length + (m + 1)) (initialPromise (⟨vs, some e⟩ : GeneratorBody α ε))
          = ⟨vs.foldl (fun _ x => some x) none, some e, [], some e, true⟩ := by
      rw [hsplit, resumeIter_add, resumeIter_exhaust_raise, resumeIter_done m _ rfl]
    have hres := TGenerator.resume_done_exc
      (⟨vs.foldl (fun _ x => some x) none, some e, [], some e, true⟩ : TGeneratorPromise α ε)
      e rfl rfl
    simp [resumeOutcome, hstate, hres]

/-- Dropping strong handles from an already-destroyed control block does
nothing. -/
theorem dropStrongHandles_none {α ε : Type} (n : Nat) :
    dropStrongHandles n (⟨none, 0⟩ : ControlBlock α ε) = ⟨none, 0⟩ := by
  induction n with
  | zero => rfl
  | succ n ih => simpa [dropStrongHandles, dropStrongHandle] using ih

/-- Dropping at least as many strong handles as exist destroys the state:
the last drop runs the shared-pointer deleter. -/
theorem dropStrongHandles_all {α ε : Type} (n : Nat) (cb : ControlBlock α ε)
    (h1 : 1 ≤ n) (h2 : cb.strongCount ≤ n) :
    dropStrongHandles n cb = ⟨none, 0⟩ := by
  induction n generalizing cb with
  | zero => omega
  | succ n ih =>
    by_cases hc : cb.strongCount ≤ 1
    · have hd : dropStrongHandle cb = (⟨none, 0⟩ : ControlBlock α ε) := by
        simp [dropStrongHandle, hc]
      show dropStrongHandles n (dropStrongHandle cb) = _
      rw [hd]
      exact dropStrongHandles_none n
    · have hcb : (dropStrongHandle cb).strongCount = cb.strongCount - 1 := by
        simp [dropStrongHandle, hc]
      have h1n : 1 ≤ n := by omega
      have h2n : (dropStrongHandle cb).strongCount ≤ n := by omega
      exact ih (dropStrongHandle cb) h1n h2n

/-!
## Claim theorems
-/

/-- **C1** (corrected).  A body that raises after yielding `N` values
produces exactly the `N` yielded values and the failure surfaces at the
`(N+1)`-th resume: through iteration the loop visits exactly the yields
and then the exhausting resume (inside `begin()` for `N = 0`, the advance
after the last value otherwise) rethrows; a cleared adaptor never
re-raises — further advances fail the `checkf` precondition instead; in a
manual loop the first `N` calls to `Resume()` report `ok true` with the
successive values current, and the `(N+1)`-th call throws.  Contrary to
the original claim's "never raises again", EVERY later `Resume()` call
throws the same failure once more, because `Exception` is never cleared
and `ThrowIfException` checks it unconditionally (lines 117 and 145). -/
theorem C1_failure_propagation_amended :
    (∀ (α ε : Type) (vs : List α) (e : ε),
      (runIterate (⟨vs, some e⟩ : GeneratorBody α ε)).1 = .raised vs e)
    ∧ (∀ (α ε : Type) (cb : ControlBlock α ε),
        (TGeneratorIterator.advance false cb).1 = .checkFailed)
    ∧ (∀ (α ε : Type) (vs : List α) (e : ε) (k : Nat) (h : k < vs.length),
        resumeOutcome k (initialPromise (⟨vs, some e⟩ : GeneratorBody α ε)) = .ok true
        ∧ TGenerator.GetCurrentValue
            (resumeIter (k + 1) (initialPromise (⟨vs, some e⟩ : GeneratorBody α ε)))
            = .ok (vs.get ⟨k, h⟩))
    ∧ (∀ (α ε : Type) (vs : List α) (e : ε) (k : Nat), vs.length ≤ k →
        resumeOutcome k (initialPromise (⟨vs, some e⟩ : GeneratorBody α ε)) = .thrown e) := by
  refine ⟨?_, ?_, ?_, ?_⟩
  · intro α ε vs e
    cases vs with
    | nil => simp [runIterate_raised_nil]
    | cons v vs => simp [runIterate_raised]
  · intro α ε cb
    rcases cb with ⟨s, n⟩
    cases s <;> simp [TGeneratorIterator.advance]
  · intro α ε vs e k h
    exact resumeOutcome_lt vs (some e) k h none
  · intro α ε vs e k h
    exact resumeOutcome_ge_raise vs e k h

/-- Witness for **C1**: a body yielding `5, 6` then raising `7`.
Iteration visits `[5, 6]` and rethrows `7`; manual resumes report
`ok true`, `ok true`, then throw `7` at the third call and still throw
`7` at the fifth. -/
theorem C1_failure_propagation_witness :
    (runIterate (⟨[5, 6], some 7⟩ : GeneratorBody Nat Nat)).1 = .raised [5, 6] 7
    ∧ resumeOutcome 1 (initialPromise (⟨[5, 6], some 7⟩ : GeneratorBody Nat Nat)) = .ok true
    ∧ resumeOutcome 2 (initialPromise (⟨[5, 6], some 7⟩ : GeneratorBody Nat Nat)) = .thrown 7
    ∧ resumeOutcome 4 (initialPromise (⟨[5, 6], some 7⟩ : GeneratorBody Nat Nat)) = .thrown 7 :=
  ⟨C1_failure_propagation_amended.1 Nat Nat [5, 6] 7,
   (C1_failure_propagation_amended.2.2.1 Nat Nat [5, 6] 7 1 (by decide)).1,
   C1_failure_propagation_amended.2.2.2 Nat Nat [5, 6] 7 2 (by decide),
   C1_failure_propagation_amended.2.2.2 Nat Nat [5, 6] 7 4 (by decide)⟩

/-- Counterexample to **C1** as stated: for a body that raises `7` before
any yield (`N = 0`), the first `Resume()` throws — and so do the second
and third, refuting "no later `Resume()` call ever raises that failure
again". -/
theorem C1_failure_propagation_counterexample :
    resumeOutcome 0 (initialPromise (⟨[], some 7⟩ : GeneratorBody Nat Nat)) = .thrown 7
    ∧ resumeOutcome 1 (initialPromise (⟨[], some 7⟩ : GeneratorBody Nat Nat)) = .thrown 7
    ∧ resumeOutcome 2 (initialPromise (⟨[], some 7⟩ : GeneratorBody Nat Nat)) = .thrown 7 := by
  decide

/-- **C2** (code bug at the empty sequence).  For every body yielding at
least one value and completing normally, iterating from `begin()` to
`end()` visits exactly the yielded values in yield order — so the count
of visited values equals the count of yields.  For a body yielding zero
values, however, the claim fails on this code: `begin()` still returns an
adaptor referencing the live (finished) state, the `it != end()` check
passes, and the loop dereferences the null current-value pointer
(undefined behaviour) instead of visiting nothing. -/
theorem C2_iteration_order_and_length :
    (∀ (α ε : Type) (v : α) (vs : List α),
      (runIterate (⟨v :: vs, none⟩ : GeneratorBody α ε)).1 = .finished (v :: vs))
    ∧ (runIterate (⟨[], none⟩ : GeneratorBody Nat Nat)).1 = .nullDeref [] := by
  refine ⟨?_, by decide⟩
  intro α ε v vs
  simp [runIterate_finished]

/-- **C3** (corrected).  On a finished coroutine state the promise-level
`Resume` returns `false` without re-entering the body and without
touching the state; and when no failure is captured, every subsequent
handle-level `Resume()` likewise reports `ok false` and leaves the state
unchanged, for every number of repeated calls.  The original claim's
unrestricted form fails for states finished by a raising body (see the
counterexample): there `Resume()` throws instead of returning false. -/
theorem C3_resume_idempotent_amended :
    ∀ (α ε : Type) (p : TGeneratorPromise α ε), p.doneFlag = true →
      TGeneratorPromise.Resume p = (false, p)
      ∧ (p.Exception = none → ∀ n : Nat,
          resumeOutcome n p = .ok false ∧ resumeIter n p = p) := by
  intro α ε p h
  refine ⟨TGeneratorPromise.resume_done p h, ?_⟩
  intro hE n
  have hst : resumeIter n p = p := resumeIter_done n p h
  refine ⟨?_, hst⟩
  simp [resumeOutcome, hst, TGenerator.Resume, TGeneratorPromise.resume_done p h, hE]

/-- Witness for **C3**: the state of a generator that yielded `4` and was
then driven to normal completion; ten further resumes all report
`ok false` and leave the state untouched. -/
theorem C3_resume_idempotent_witness :
    (resumeIter 2 (initialPromise (⟨[4], none⟩ : GeneratorBody Nat Nat))).doneFlag = true
    ∧ resumeOutcome 10 (resumeIter 2 (initialPromise (⟨[4], none⟩ : GeneratorBody Nat Nat)))
        = .ok false
    ∧ resumeIter 10 (resumeIter 2 (initialPromise (⟨[4], none⟩ : GeneratorBody Nat Nat)))
        = resumeIter 2 (initialPromise (⟨[4], none⟩ : GeneratorBody Nat Nat)) := by
  refine ⟨by decide, ?_, ?_⟩
  · exact ((C3_resume_idempotent_amended Nat Nat _ (by decide)).2 (by decide) 10).1
  · exact ((C3_resume_idempotent_amended Nat Nat _ (by decide)).2 (by decide) 10).2

/-- Counterexample to **C3** as stated: a generator whose body raised `3`
is finished (`done()` is true), yet the next `Resume()` call on the
handle throws `3` rather than returning "no more values". -/
theorem C3_resume_idempotent_counterexample :
    (resumeIter 1 (initialPromise (⟨[], some 3⟩ : GeneratorBody Nat Nat))).doneFlag = true
    ∧ resumeOutcome 1 (initialPromise (⟨[], some 3⟩ : GeneratorBody Nat Nat)) = .thrown 3
    ∧ ¬ resumeOutcome 1 (initialPromise (⟨[], some 3⟩ : GeneratorBody Nat Nat)) = .ok false := by
  decide

/-- **C4** (code bug).  For a body yielding zero values, the priming
resume inside `begin()` reports completion, yet `begin()` still returns
`iterator(*this)` — an adaptor referencing the live finished state — and
such an adaptor does NOT compare equal to the null `end()` sentinel under
weak-pointer equality; iterating the empty generator consequently
dereferences the null current-value pointer.  The claimed
"constructed already equal to the end sentinel" does not hold on this
code. -/
theorem C4_empty_begin_not_end :
    TGenerator.begin (initialPromise (⟨[], none⟩ : GeneratorBody Nat Nat))
      = (.ok, ⟨none, none, [], none, true⟩)
    ∧ TGeneratorIterator.eq (fun i => i == 0) (some 0) none = false
    ∧ TGeneratorIterator.ne (fun i => i == 0) (some 0) none = true
    ∧ (runIterate (⟨[], none⟩ : GeneratorBody Nat Nat)).2.1 = true := by
  decide

/-- **C5** (confirmed).  After a generator with at least one yield is
driven to exhaustion, the original handle still sees the last yielded
value: `HasValue()` stays true and `GetCurrentValue()` returns it (the
finished frame keeps `CurrentValuePtr`), while the exhausted iterator
adaptor ends cleared — its weak pointer is null, the `end()` sentinel
form.  Both the iteration path and the manual `Resume()` path are
covered. -/
theorem C5_post_exhaustion_read :
    ∀ (α ε : Type) (v : α) (vs : List α),
      runIterate (⟨v :: vs, none⟩ : GeneratorBody α ε)
          = (.finished (v :: vs), false,
             ⟨some ⟨some (vs.getLastD v), none, [], none, true⟩, 1⟩)
      ∧ (∀ p, (runIterate (⟨v :: vs, none⟩ : GeneratorBody α ε)).2.2.state = some p →
          TGenerator.HasValue p = true
          ∧ TGenerator.GetCurrentValue p = .ok (vs.getLastD v))
      ∧ (∀ k, vs.length + 2 ≤ k →
          TGenerator.HasValue
              (resumeIter k (initialPromise (⟨v :: vs, none⟩ : GeneratorBody α ε))) = true
          ∧ TGenerator.GetCurrentValue
              (resumeIter k (initialPromise (⟨v :: vs, none⟩ : GeneratorBody α ε)))
              = .ok (vs.getLastD v)) := by
  intro α ε v vs
  refine ⟨runIterate_finished v vs, ?_, ?_⟩
  · intro p hp
    rw [runIterate_finished] at hp
    have hp2 : (⟨some (vs.getLastD v), none, [], none, true⟩ : TGeneratorPromise α ε) = p := by
      simpa using hp
    subst hp2
    simp [TGenerator.HasValue, TGenerator.GetCurrentValue]
  · intro k hk
    obtain ⟨m, rfl⟩ := Nat.exists_eq_add_of_le hk
    have hstate :
        resumeIter (vs.length + 2 + m) (initialPromise (⟨v :: vs, none⟩ : GeneratorBody α ε))
          = ⟨some (vs.getLastD v), none, [], none, true⟩ := by
      have h1 : vs.length + 2 + m = ((v :: vs).length + 1) + m := by
        simp only [List.length_cons]
      rw [h1, resumeIter_add, resumeIter_exhaust, resumeIter_done m _ rfl,
        foldl_lastYield]
    simp [hstate, TGenerator.HasValue, TGenerator.GetCurrentValue]

/-- Witness for **C5**: the body yielding `10, 11, 12`.  Iteration visits
all three and ends with a cleared adaptor; after six manual resumes the
handle still holds `12`. -/
theorem C5_post_exhaustion_read_witness :
    runIterate (⟨[10, 11, 12], none⟩ : GeneratorBody Nat Nat)
        = (.finished [10, 11, 12], false, ⟨some ⟨some 12, none, [], none, true⟩, 1⟩)
    ∧ TGenerator.HasValue
        (resumeIter 6 (initialPromise (⟨[10, 11, 12], none⟩ : GeneratorBody Nat Nat))) = true
    ∧ TGenerator.GetCurrentValue
        (resumeIter 6 (initialPromise (⟨[10, 11, 12], none⟩ : GeneratorBody Nat Nat)))
        = .ok 12 := by
  refine ⟨?_, ?_, ?_⟩
  · simpa using (C5_post_exhaustion_read Nat Nat 10 [11, 12]).1
  · exact ((C5_post_exhaustion_read Nat Nat 10 [11, 12]).2.2 6 (by decide)).1
  · simpa using ((C5_post_exhaustion_read Nat Nat 10 [11, 12]).2.2 6 (by decide)).2

/-- **C6** (confirmed).  `operator++` on an adaptor: with no live
referenced state it fails the `checkf` precondition and changes nothing;
with a live state it pins the weak handle and resumes exactly once — if
the resume reports more values the adaptor keeps referencing the state,
and if it reports no more values the adaptor's weak pointer is nulled
(making it the `end()` sentinel) and any captured failure is rethrown out
of this very call, the returned adaptor being already cleared. -/
theorem C6_advance_contract :
    ∀ (α ε : Type) (hasRef : Bool) (cb : ControlBlock α ε),
      (WeakIsValid hasRef cb = false →
        TGeneratorIterator.advance hasRef cb = (.checkFailed, hasRef, cb))
      ∧ (∀ p, cb.state = some p → hasRef = true →
          (TGeneratorPromise.Resume p).1 = true →
            TGeneratorIterator.advance hasRef cb
              = (.ok, true, ⟨some (TGeneratorPromise.Resume p).2, cb.strongCount⟩))
      ∧ (∀ p, cb.state = some p → hasRef = true →
          (TGeneratorPromise.Resume p).1 = false →
            TGeneratorIterator.advance hasRef cb
              = ((match (TGeneratorPromise.Resume p).2.Exception with
                  | some e => AdvanceOutcome.thrown e
                  | none => AdvanceOutcome.ok),
                 false, ⟨some (TGeneratorPromise.Resume p).2, cb.strongCount⟩)) := by
  intro α ε hasRef cb
  refine ⟨?_, ?_, ?_⟩
  · intro hv
    rcases cb with ⟨s, n⟩
    cases s with
    | none => simp [TGeneratorIterator.advance]
    | some p =>
      have hr : hasRef = false := by simpa [WeakIsValid] using hv
      subst hr
      simp [TGeneratorIterator.advance]
  · intro p hp hr h1
    rcases cb with ⟨s, n⟩
    simp only at hp
    subst hp
    subst hr
    simp [TGeneratorIterator.advance, h1]
  · intro p hp hr h1
    rcases cb with ⟨s, n⟩
    simp only at hp
    subst hp
    subst hr
    cases hE : (TGeneratorPromise.Resume p).2.Exception <;>
      simp [TGeneratorIterator.advance, h1, hE]

/-- Witness for **C6**: a null adaptor fails the precondition; a live
adaptor on a generator holding `5` with `6` pending advances to `6`; a
live adaptor whose body raises `7` next is cleared and the advance
throws `7`. -/
theorem C6_advance_contract_witness :
    TGeneratorIterator.advance false
        (⟨some ⟨some 5, none, [], some 7, false⟩, 1⟩ : ControlBlock Nat Nat)
      = (.checkFailed, false, ⟨some ⟨some 5, none, [], some 7, false⟩, 1⟩)
    ∧ TGeneratorIterator.advance true
        (⟨some ⟨some 5, none, [6], none, false⟩, 1⟩ : ControlBlock Nat Nat)
      = (.ok, true, ⟨some ⟨some 6, none, [], none, false⟩, 1⟩)
    ∧ TGeneratorIterator.advance true
        (⟨some ⟨some 5, none, [], some 7, false⟩, 1⟩ : ControlBlock Nat Nat)
      = (.thrown 7, false, ⟨some ⟨some 5, some 7, [], some 7, true⟩, 1⟩) := by
  refine ⟨?_, ?_, ?_⟩
  · exact (C6_advance_contract Nat Nat false _).1 (by decide)
  · exact (C6_advance_contract Nat Nat true _).2.1
      ⟨some 5, none, [6], none, false⟩ rfl rfl (by decide)
  · exact (C6_advance_contract Nat Nat true _).2.2
      ⟨some 5, none, [], some 7, false⟩ rfl rfl (by decide)

/-- **C7** (confirmed).  `operator==` on two adaptors — Unreal
weak-pointer equality, comparing the raw pointers obtained by pinning —
returns true exactly when both adaptors reference no live state, or both
reference the identical underlying state object; `operator!=` is its
negation. -/
theorem C7_iterator_equality_is_identity :
    ∀ (alive : Nat → Bool) (a b : Option Nat),
      (TGeneratorIterator.eq alive a b = true ↔
        (referencesLive alive a = false ∧ referencesLive alive b = false)
        ∨ (∃ i, a = some i ∧ b = some i ∧ alive i = true))
      ∧ TGeneratorIterator.ne alive a b = !TGeneratorIterator.eq alive a b := by
  intro alive a b
  refine ⟨?_, rfl⟩
  cases a with
  | none =>
    cases b with
    | none => simp [TGeneratorIterator.eq, pinGet, referencesLive]
    | some j =>
      cases hj : alive j <;>
        simp [TGeneratorIterator.eq, pinGet, referencesLive, hj]
  | some i =>
    cases b with
    | none =>
      cases hi : alive i <;>
        simp [TGeneratorIterator.eq, pinGet, referencesLive, hi]
    | some j =>
      by_cases hij : i = j
      · subst hij
        cases hi : alive i <;>
          simp [TGeneratorIterator.eq, pinGet, referencesLive, hi]
      · cases hi : alive i <;> cases hj : alive j <;>
          simp [TGeneratorIterator.eq, pinGet, referencesLive, hi, hj, hij,
            Ne.symm hij]

/-- **C8** (confirmed).  `Pin()` on a weak handle: while the state is
alive it returns a strong handle sharing the identical state and the
strong count grows by one; with the state destroyed (or a null weak
pointer) it returns an empty handle and touches nothing.  Dropping every
strong handle destroys the state, after which pinning yields the empty
result. -/
theorem C8_weak_handle_pin :
    ∀ (α ε : Type) (hasRef : Bool) (cb : ControlBlock α ε),
      (∀ p, cb.state = some p → hasRef = true →
        TWeakGeneratorHandle.Pin hasRef cb = (some p, ⟨some p, cb.strongCount + 1⟩))
      ∧ (cb.state = none → TWeakGeneratorHandle.Pin hasRef cb = (none, cb))
      ∧ (hasRef = false → TWeakGeneratorHandle.Pin hasRef cb = (none, cb))
      ∧ (1 ≤ cb.strongCount →
          dropStrongHandles cb.strongCount cb = ⟨none, 0⟩
          ∧ TWeakGeneratorHandle.Pin hasRef (dropStrongHandles cb.strongCount cb)
              = (none, ⟨none, 0⟩)) := by
  intro α ε hasRef cb
  refine ⟨?_, ?_, ?_, ?_⟩
  · intro p hp hr
    subst hr
    rcases cb with ⟨s, n⟩
    simp only at hp
    subst hp
    simp [TWeakGeneratorHandle.Pin, WeakIsValid]
  · intro hp
    simp [TWeakGeneratorHandle.Pin, WeakIsValid, hp]
  · intro hr
    subst hr
    simp [TWeakGeneratorHandle.Pin, WeakIsValid]
  · intro h1
    have hall := dropStrongHandles_all cb.strongCount cb h1 le_rfl
    refine ⟨hall, ?_⟩
    rw [hall]
    cases hasRef <;> simp [TWeakGeneratorHandle.Pin, WeakIsValid]

/-- Witness for **C8**: pinning a weak handle on a live control block
with two strong references shares the state and bumps the count to three;
dropping both strong handles destroys the state and a subsequent pin is
empty. -/
theorem C8_weak_handle_pin_witness :
    TWeakGeneratorHandle.Pin true
        (⟨some (initialPromise (⟨[1], none⟩ : GeneratorBody Nat Nat)), 2⟩ : ControlBlock Nat Nat)
      = (some (initialPromise ⟨[1], none⟩), ⟨some (initialPromise ⟨[1], none⟩), 3⟩)
    ∧ dropStrongHandles 2
        (⟨some (initialPromise (⟨[1], none⟩ : GeneratorBody Nat Nat)), 2⟩ : ControlBlock Nat Nat)
      = ⟨none, 0⟩
    ∧ TWeakGeneratorHandle.Pin true
        (dropStrongHandles 2
          (⟨some (initialPromise (⟨[1], none⟩ : GeneratorBody Nat Nat)), 2⟩ : ControlBlock Nat Nat))
      = (none, ⟨none, 0⟩) := by
  refine ⟨?_, ?_, ?_⟩
  · exact (C8_weak_handle_pin Nat Nat true _).1 _ rfl rfl
  · exact ((C8_weak_handle_pin Nat Nat true
      (⟨some (initialPromise (⟨[1], none⟩ : GeneratorBody Nat Nat)), 2⟩ :
        ControlBlock Nat Nat)).2.2.2 (by decide)).1
  · exact ((C8_weak_handle_pin Nat Nat true
      (⟨some (initialPromise (⟨[1], none⟩ : GeneratorBody Nat Nat)), 2⟩ :
        ControlBlock Nat Nat)).2.2.2 (by decide)).2

/-- **C9** (corrected).  `CreateIterator()` is `return begin();`, so it
performs the identical priming resume and reaches the identical promise
state, and whenever `begin()` returns normally the two calls coincide.
But `CreateIterator()` is declared `noexcept`: when priming surfaces a
captured failure, `begin()` propagates it while `CreateIterator()` hits
`std::terminate` instead of re-raising — the claimed "re-raises the same
captured failure" fails there (see the counterexample). -/
theorem C9_createiterator_begin_equiv_amended :
    ∀ (α ε : Type) (p : TGeneratorPromise α ε),
      (TGenerator.CreateIterator p).2 = (TGenerator.begin p).2
      ∧ ((TGenerator.begin p).1 = .ok →
          TGenerator.CreateIterator p = TGenerator.begin p)
      ∧ (∀ e, (TGenerator.begin p).1 = .thrown e →
          TGenerator.CreateIterator p = (.terminated, (TGenerator.begin p).2)) := by
  intro α ε p
  rcases hb : TGenerator.begin p with ⟨o, p1⟩
  cases o <;> simp [TGenerator.CreateIterator, hb]

/-- Witness for **C9**: on a generator yielding `3`, `CreateIterator()`
and `begin()` coincide; on a generator raising `9` before any yield,
`CreateIterator()` terminates while reaching `begin()`'s state. -/
theorem C9_createiterator_begin_equiv_witness :
    TGenerator.CreateIterator (initialPromise (⟨[3], none⟩ : GeneratorBody Nat Nat))
      = TGenerator.begin (initialPromise (⟨[3], none⟩ : GeneratorBody Nat Nat))
    ∧ TGenerator.CreateIterator (initialPromise (⟨[], some 9⟩ : GeneratorBody Nat Nat))
      = (.terminated,
         (TGenerator.begin (initialPromise (⟨[], some 9⟩ : GeneratorBody Nat Nat))).2) := by
  refine ⟨?_, ?_⟩
  · exact (C9_createiterator_begin_equiv_amended Nat Nat _).2.1 (by decide)
  · exact (C9_createiterator_begin_equiv_amended Nat Nat _).2.2 9 (by decide)

/-- Counterexample to **C9** as stated: for a body raising `7` before any
yield, `begin()` rethrows `7` but `CreateIterator()` — being `noexcept` —
ends in `std::terminate`; the two calls are observably different. -/
theorem C9_createiterator_noexcept_counterexample :
    TGenerator.begin (initialPromise (⟨[], some 7⟩ : GeneratorBody Nat Nat))
      = (.thrown 7, ⟨none, some 7, [], some 7, true⟩)
    ∧ TGenerator.CreateIterator (initialPromise (⟨[], some 7⟩ : GeneratorBody Nat Nat))
      = (.terminated, ⟨none, some 7, [], some 7, true⟩)
    ∧ TGenerator.CreateIterator (initialPromise (⟨[], some 7⟩ : GeneratorBody Nat Nat))
      ≠ TGenerator.begin (initialPromise (⟨[], some 7⟩ : GeneratorBody Nat Nat)) := by
  decide

/-- **C10** (confirmed).  `operator++(int)` is `{ operator++(); }`: the
post-increment performs exactly the pre-increment's transition — same
outcome, same adaptor state, same control block — and returns nothing, so
no pre-advance iterator copy is ever observable. -/
theorem C10_postincrement_is_preincrement :
    ∀ (α ε : Type) (hasRef : Bool) (cb : ControlBlock α ε),
      TGeneratorIterator.advancePost hasRef cb = TGeneratorIterator.advance hasRef cb :=
  fun _ _ _ _ => rfl

end Generator
